import Mathlib

/-!
Shallow embedding of the MCP client orchestration core (`multi_client.py` and
`weather_client.py`).  Pure data is translated directly; the external
collaborators (the MCP `ClientSession`, the `json` module, the Ollama chat
backend, `contextlib.AsyncExitStack`) are passed in as explicit values /
functions, and every externally visible effect of a run is recorded in an
event trace, so that theorems can speak about *when* catalogs are fetched,
*which* arguments are dispatched, and *what* is appended to the conversation
history.
-/

/-- Dynamic JSON-like values, the result type of `json.loads` and the payload
type of tool-call arguments and tool input schemas. -/
inductive Json where
  | null
  | bool (b : Bool)
  | num (n : Int)
  | str (s : String)
  | arr (elems : List Json)
  | obj (fields : List (String × Json))
  deriving Repr

/-- Executable model of Python's `str.endswith` (and Lean's `String.endsWith`),
computed on the character list so that concrete instances reduce in the
kernel. -/
def strEndsWith (s suffix : String) : Bool :=
  s.data.reverse.take suffix.data.length == suffix.data.reverse

/-- A tool descriptor as returned by an MCP server's `list_tools`
(`mcp.types.Tool`): the fields of each `tool` read by
`convert_tools_format`. -/
structure MCPTool where
  name : String
  description : String
  inputSchema : Json
  deriving Repr

/-- The `function` member of an Ollama function-spec built by
`convert_tools_format`. -/
structure FunctionSpec where
  name : String
  description : String
  parameters : Json
  deriving Repr

/-- One entry of the tool list handed to `ollama_client.chat`: the dict
`\x7b"type": "function", "function": \x7b...\x7d\x7d` built by
`convert_tools_format`. -/
structure OllamaTool where
  type : String
  function : FunctionSpec
  deriving Repr

/-- Embedding of `MCPClient.convert_tools_format` (multi_client.py lines
21-37; textually identical in weather_client.py lines 20-37): the for-loop
that appends one converted dict per input tool, in input order. -/
def convert_tools_format (tools : List MCPTool) : List OllamaTool :=
  tools.map fun tool =>
    { type := "function"
      function :=
        { name := tool.name
          description := tool.description
          parameters := tool.inputSchema } }

/-- The Python value found in a tool call's `arguments` slot before decoding:
the model backend may deliver a JSON-encoded string or an
already-structured mapping. -/
inductive PyArgs where
  | pyStr (s : String)
  | pyDict (fields : List (String × Json))
  deriving Repr

/-- Embedding of the `try: tool_args = json.loads(tool_args) ...` block
(multi_client.py lines 119-127, weather_client.py lines 101-109).  The
external `json.loads` is passed in as `jsonLoads` (returning `none` on
`json.JSONDecodeError`).  On a string argument a decode failure is replaced
by the empty mapping (`tool_args = \x7b\x7d`); on a mapping argument
`json.loads` raises `TypeError`, which the `except TypeError: pass` arm
swallows, leaving the mapping unchanged. -/
def decodeToolArgs (jsonLoads : String → Option Json) : PyArgs → Json
  | .pyStr s =>
    match jsonLoads s with
    | some v => v
    | none => .obj []
  | .pyDict fields => .obj fields

/-- One message of the conversation history: the dicts appended to
`messages` by `process_query` (`role: user` at start, `role: tool` after a
dispatch).  The tool name is `call.get("name")`, which is `None` when the
key is absent. -/
inductive Message where
  | user (content : String)
  | tool (name : Option String) (content : String)
  deriving Repr

/-- The `function` member of one entry of `response.message["tool_calls"]`:
`call.get("name")` yields `none` when absent, and `call.get("arguments",
"\x7b\x7d")` defaults to the literal string of an empty JSON object. -/
structure FunctionCall where
  name : Option String
  arguments : Option PyArgs
  deriving Repr

/-- One entry of `response.message["tool_calls"]`. -/
structure ToolCall where
  function : FunctionCall
  deriving Repr

/-- The `message` member of an Ollama chat response. -/
structure ModelMessage where
  content : Option String
  tool_calls : Option (List ToolCall)
  deriving Repr

/-- One Ollama chat response. -/
structure ModelResponse where
  message : ModelMessage
  deriving Repr

/-- Outcome of the external `ClientSession.call_tool`: the MCP session
returns a `CallToolResult` (with `isError = true` when the provider's tool
execution failed - provider-level failures are returned as results, not
raised), and raises only on a connection-level fault (provider process
died / protocol error), modelled by `connectionFault`. -/
inductive CallOutcome where
  | result (content : String) (isError : Bool)
  | connectionFault
  deriving Repr

/-- Model of Python's `str(result)` on a `CallToolResult`, as used in
`messages.append(\x7b..., "content": str(result)\x7d)`: a deterministic
rendering of the result's fields. -/
def strCallToolResult (content : String) (isError : Bool) : String :=
  "CallToolResult(content=" ++ content ++ ", isError=" ++
    (if isError then "True" else "False") ++ ")"

/-- An MCP `ClientSession` as seen by the client code: its `list_tools`
catalog and its `call_tool` behaviour. -/
structure Session where
  tools : List MCPTool
  call_tool : Option String → Json → CallOutcome

/-- Python exceptions that the embedded code can raise to its caller. -/
inductive PyError where
  | valueError (msg : String)
  | attributeError (attr : String)
  | providerUnavailable
  | backendNoResponse
  deriving Repr, DecidableEq

/-- Externally visible effects of a run, in chronological order. -/
inductive Event where
  | listToolsFetch (tools : List MCPTool)
  | chatCall (tools : List OllamaTool)
  | toolDispatch (name : Option String) (args : Json)
  | historyAppend (msg : Message)
  | spawnSubprocess (command : String) (arg : String)
  | sessionHandshake
  | closeResource (handle : Nat)
  deriving Repr

/-- True exactly on `chatCall` events (one model round-trip each). -/
def Event.isChatCall : Event → Bool
  | .chatCall _ => true
  | _ => false

/-- True exactly on `listToolsFetch` events (one catalog re-fetch each). -/
def Event.isListToolsFetch : Event → Bool
  | .listToolsFetch _ => true
  | _ => false

/-- True exactly on `toolDispatch` events (one `call_tool` invocation
each). -/
def Event.isToolDispatch : Event → Bool
  | .toolDispatch _ _ => true
  | _ => false

/-- Formalisation, over a run's event trace, of the claim "the tool catalog
is re-fetched before each conversation turn": scanning left to right, every
`chatCall` must have been preceded by a `listToolsFetch` occurring after
the previous `chatCall` (the accumulator records whether a fetch has been
seen since the last model round-trip). -/
def chatsPrecededByFetch : List Event → Bool → Bool
  | [], _ => true
  | .listToolsFetch _ :: rest, _ => chatsPrecededByFetch rest true
  | .chatCall _ :: rest, seen => seen && chatsPrecededByFetch rest false
  | e :: rest, seen =>
    match e with
    | _ => chatsPrecededByFetch rest seen

/-- Model of `contextlib.AsyncExitStack`: the ordered list of resource
handles registered by `enter_async_context`.  The Python class is external
standard-library code; its documented `aclose` semantics (unwind all
registered contexts last-opened-first and leave the stack empty) is what
the clients' `cleanup` relies on. -/
structure AsyncExitStack where
  resources : List Nat
  deriving Repr, DecidableEq

/-- The `aclose` operation of `AsyncExitStack`: closes every registered
resource in reverse registration order and empties the stack. -/
def AsyncExitStack.aclose (stack : AsyncExitStack) : AsyncExitStack × List Event :=
  ({ resources := [] }, stack.resources.reverse.map Event.closeResource)

/-- Embedding of `MCPClient.cleanup` (multi_client.py lines 159-161,
weather_client.py lines 141-143): `await self.exit_stack.aclose()`. -/
def cleanup (stack : AsyncExitStack) : AsyncExitStack × List Event :=
  stack.aclose

namespace WeatherClient

/-- Embedding of the `while True` loop of `MCPClient.process_query`
(weather_client.py lines 81-121).  The Ollama backend is scripted: the
k-th `chat` call returns the k-th element of `responses` (an exhausted
script is a backend failure, `backendNoResponse`).  `available_tools` is
the tool list computed before the loop and passed unchanged to every
`chat` call, exactly as in the source.  Each iteration records its `chat`
call, any `call_tool` dispatch and any history append in the trace.  A
`connectionFault` from `call_tool` is an exception with no local handler,
so it propagates out of `process_query` (`providerUnavailable`). -/
def processTurns (session : Session) (jsonLoads : String → Option Json)
    (available_tools : List OllamaTool) (messages : List Message) :
    List ModelResponse → Except PyError String × List Event
  | [] => (.error .backendNoResponse, [])
  | response :: rest =>
    let tool_calls := response.message.tool_calls.getD []
    match tool_calls with
    | [] =>
      (.ok (response.message.content.getD ""), [.chatCall available_tools])
    | call0 :: _ =>
      let call := call0.function
      let tool_name := call.name
      let raw_args := call.arguments.getD (.pyStr "\x7b\x7d")
      let tool_args := decodeToolArgs jsonLoads raw_args
      match session.call_tool tool_name tool_args with
      | .connectionFault =>
        (.error .providerUnavailable,
          [.chatCall available_tools, .toolDispatch tool_name tool_args])
      | .result content isError =>
        let toolMsg := Message.tool tool_name (strCallToolResult content isError)
        let k := processTurns session jsonLoads available_tools
          (messages ++ [toolMsg]) rest
        (k.1, .chatCall available_tools :: .toolDispatch tool_name tool_args ::
          .historyAppend toolMsg :: k.2)

/-- Embedding of `MCPClient.process_query` (weather_client.py lines 69-121):
seed the history with the user message, fetch the catalog from the single
session once (`self.session.list_tools()`), convert it, then run the turn
loop with that fixed tool list. -/
def process_query (session : Session) (jsonLoads : String → Option Json)
    (query : String) (responses : List ModelResponse) :
    Except PyError String × List Event :=
  let messages := [Message.user query]
  let available_tools := convert_tools_format session.tools
  let k := processTurns session jsonLoads available_tools messages responses
  (k.1, .listToolsFetch session.tools :: k.2)

end WeatherClient

namespace MultiClient

/-- The attribute state of `MCPClient` in multi_client.py: `__init__` (lines
16-19) assigns `self.sessions = []`; the attribute `self.session` (singular)
is read at the dispatch site (line 130) but is assigned nowhere in the
file, so it is modelled as an `Option` that starts as `none` and stays
`none` - reading it raises `AttributeError`. -/
structure ClientState where
  sessions : List Session
  session : Option Session

/-- Embedding of `MCPClient.__init__` (multi_client.py lines 16-19):
`self.sessions` starts empty and `self.session` is never assigned. -/
def init : ClientState := { sessions := [], session := none }

/-- Embedding of `MCPClient.connect_to_server` (multi_client.py lines
39-71): classify the script path by suffix, raising `ValueError` before
any subprocess parameter is built when the suffix is neither `.py` nor
`.js`; otherwise spawn the runtime subprocess, open a session over its
stdio transport (the session the external transport yields is the
parameter `newSession`), append it to `self.sessions`, perform the
protocol handshake, and re-list every connected session's tools for the
status printout (lines 67-71). -/
def connect_to_server (st : ClientState) (server_script_path : String)
    (newSession : Session) : Except PyError ClientState × List Event :=
  let is_python := strEndsWith server_script_path ".py"
  let is_js := strEndsWith server_script_path ".js"
  if !(is_python || is_js) then
    (.error (.valueError "Server script must be a .py or .js file"), [])
  else
    let command := if is_python then "python" else "node"
    let st' : ClientState := { st with sessions := st.sessions ++ [newSession] }
    (.ok st',
      Event.spawnSubprocess command server_script_path :: Event.sessionHandshake ::
        st'.sessions.map fun s => Event.listToolsFetch s.tools)

/-- Embedding of `MCPClient.connect_to_servers` (multi_client.py lines
73-84): connect to each script sequentially (each external transport's
session is supplied alongside its path), propagating the first failure;
afterwards re-list each session's tools for the per-server printout. -/
def connect_to_servers (st : ClientState) :
    List (String × Session) → Except PyError ClientState × List Event
  | [] => (.ok st, st.sessions.map fun s => Event.listToolsFetch s.tools)
  | (path, newSession) :: rest =>
    match connect_to_server st path newSession with
    | (.error e, evs) => (.error e, evs)
    | (.ok st', evs) =>
      let k := connect_to_servers st' rest
      (k.1, evs ++ k.2)

/-- Embedding of the `while True` loop of `MCPClient.process_query`
(multi_client.py lines 100-139).  Identical to the weather client's loop
except at the dispatch site (line 130): the code reads `self.session`,
an attribute never assigned in this file, so reaching a tool call raises
`AttributeError` before any `call_tool` dispatch can happen. -/
def processTurns (st : ClientState) (jsonLoads : String → Option Json)
    (available_tools : List OllamaTool) (messages : List Message) :
    List ModelResponse → Except PyError String × List Event
  | [] => (.error .backendNoResponse, [])
  | response :: rest =>
    let tool_calls := response.message.tool_calls.getD []
    match tool_calls with
    | [] =>
      (.ok (response.message.content.getD ""), [.chatCall available_tools])
    | call0 :: _ =>
      let call := call0.function
      let tool_name := call.name
      let raw_args := call.arguments.getD (.pyStr "\x7b\x7d")
      let tool_args := decodeToolArgs jsonLoads raw_args
      match st.session with
      | none =>
        (.error (.attributeError "session"), [.chatCall available_tools])
      | some sess =>
        match sess.call_tool tool_name tool_args with
        | .connectionFault =>
          (.error .providerUnavailable,
            [.chatCall available_tools, .toolDispatch tool_name tool_args])
        | .result content isError =>
          let toolMsg := Message.tool tool_name (strCallToolResult content isError)
          let k := processTurns st jsonLoads available_tools
            (messages ++ [toolMsg]) rest
          (k.1, .chatCall available_tools :: .toolDispatch tool_name tool_args ::
            .historyAppend toolMsg :: k.2)

/-- Embedding of `MCPClient.process_query` (multi_client.py lines 86-139):
seed the history with the user message, fetch and convert every connected
session's catalog once (the `for sess in self.sessions` loop, lines
94-97), then run the turn loop with the concatenated tool list. -/
def process_query (st : ClientState) (jsonLoads : String → Option Json)
    (query : String) (responses : List ModelResponse) :
    Except PyError String × List Event :=
  let messages := [Message.user query]
  let available_tools := (st.sessions.map fun s => convert_tools_format s.tools).flatten
  let k := processTurns st jsonLoads available_tools messages responses
  (k.1, (st.sessions.map fun s => Event.listToolsFetch s.tools) ++ k.2)

end MultiClient

/-- Concrete tool descriptor: the `get_time` tool advertised by demo
provider A. -/
def getTimeTool : MCPTool :=
  { name := "get_time", description := "Get the current time", inputSchema := .obj [] }

/-- Concrete tool descriptor: the `get_weather` tool advertised by demo
provider B. -/
def getWeatherTool : MCPTool :=
  { name := "get_weather", description := "Get the weather for a city", inputSchema := .obj [] }

/-- Demo provider A: advertises only `get_time`. -/
def providerA : Session :=
  { tools := [getTimeTool], call_tool := fun _ _ => .result "12:00" false }

/-- Demo provider B: advertises only `get_weather`. -/
def providerB : Session :=
  { tools := [getWeatherTool], call_tool := fun _ _ => .result "sunny" false }

/-- A `json.loads` behaviour that decodes every string to the empty JSON
object (sufficient for runs whose only argument string is
`"\x7b\x7d"`). -/
def demoDecode : String → Option Json := fun _ => some (.obj [])

/-- A `json.loads` behaviour on which every string fails to decode, as
`json.loads` does on the literal `not-json`. -/
def failDecode : String → Option Json := fun _ => none

/-- A model response whose single tool call requests `get_weather` with the
argument string `"\x7b\x7d"`. -/
def askWeatherResponse : ModelResponse :=
  { message :=
      { content := none
        tool_calls := some
          [{ function := { name := some "get_weather", arguments := some (.pyStr "\x7b\x7d") } }] } }

/-- A model response with no tool calls and final text `done`. -/
def finalResponse : ModelResponse :=
  { message := { content := some "done", tool_calls := none } }

/-- The multi-client state after connecting provider A and then provider B:
both sessions registered, `self.session` still never assigned. -/
def twoProviderState : MultiClient.ClientState :=
  { sessions := [providerA, providerB], session := none }

/-- Demo provider whose tool execution always fails at the provider level:
`call_tool` returns an error-flagged `CallToolResult`. -/
def flakyProvider : Session :=
  { tools := [getWeatherTool], call_tool := fun _ _ => .result "boom" true }

/-- A model response whose single tool call carries the non-JSON argument
string `not-json`. -/
def badJsonResponse : ModelResponse :=
  { message :=
      { content := none
        tool_calls := some
          [{ function := { name := some "get_weather", arguments := some (.pyStr "not-json") } }] } }

/-- A model response whose single tool call carries arguments that are
already a structured mapping rather than a JSON string. -/
def dictArgsResponse : ModelResponse :=
  { message :=
      { content := none
        tool_calls := some
          [{ function :=
              { name := some "get_weather"
                arguments := some (.pyDict [("city", .str "SF")]) } }] } }

/-- A model response carrying two tool-call requests in one turn:
`get_weather` first, then `get_time`. -/
def twoCallResponse : ModelResponse :=
  { message :=
      { content := none
        tool_calls := some
          [{ function := { name := some "get_weather", arguments := some (.pyStr "\x7b\x7d") } },
           { function := { name := some "get_time", arguments := some (.pyStr "\x7b\x7d") } }] } }

/-- Helper: the trace of the weather client's turn loop is empty (exhausted
script) or begins with the model round-trip's `chatCall`. -/
theorem weather_trace_head (session : Session) (jsonLoads : String → Option Json)
    (available_tools : List OllamaTool) (messages : List Message)
    (rs : List ModelResponse) :
    (WeatherClient.processTurns session jsonLoads available_tools messages rs).2 = [] ∨
    ∃ t, (WeatherClient.processTurns session jsonLoads available_tools messages rs).2 =
      .chatCall available_tools :: t := by
  cases rs with
  | nil => left; simp [WeatherClient.processTurns]
  | cons response rest =>
    right
    rcases hcalls : response.message.tool_calls.getD [] with _ | ⟨call0, cs⟩
    · exact ⟨[], by simp [WeatherClient.processTurns, hcalls]⟩
    · rcases hout : session.call_tool call0.function.name
        (decodeToolArgs jsonLoads (call0.function.arguments.getD (.pyStr "\x7b\x7d"))) with
        ⟨content, isError⟩ | _
      · exact ⟨Event.toolDispatch call0.function.name
            (decodeToolArgs jsonLoads (call0.function.arguments.getD (.pyStr "\x7b\x7d"))) ::
          Event.historyAppend (Message.tool call0.function.name
            (strCallToolResult content isError)) ::
          (WeatherClient.processTurns session jsonLoads available_tools
            (messages ++ [Message.tool call0.function.name
              (strCallToolResult content isError)]) rest).2,
          by simp [WeatherClient.processTurns, hcalls, hout]⟩
      · exact ⟨[Event.toolDispatch call0.function.name
            (decodeToolArgs jsonLoads (call0.function.arguments.getD (.pyStr "\x7b\x7d")))],
          by simp [WeatherClient.processTurns, hcalls, hout]⟩

/-- Helper: every event emitted by the weather client's turn loop is a
`chatCall`, `toolDispatch` or `historyAppend` - never a catalog re-fetch -
and every `chatCall` carries exactly the `available_tools` list the loop
was entered with. -/
theorem weather_turns_no_refetch (session : Session) (jsonLoads : String → Option Json)
    (available_tools : List OllamaTool) :
    ∀ (rs : List ModelResponse) (messages : List Message),
      ∀ e ∈ (WeatherClient.processTurns session jsonLoads available_tools messages rs).2,
        e.isListToolsFetch = false ∧
        (e.isChatCall = true → e = .chatCall available_tools) := by
  intro rs
  induction rs with
  | nil =>
    intro messages e he
    simp [WeatherClient.processTurns] at he
  | cons response rest ih =>
    intro messages e he
    rcases hcalls : response.message.tool_calls.getD [] with _ | ⟨call0, cs⟩
    · simp [WeatherClient.processTurns, hcalls] at he
      simp [he, Event.isListToolsFetch, Event.isChatCall]
    · rcases hout : session.call_tool call0.function.name
        (decodeToolArgs jsonLoads (call0.function.arguments.getD (.pyStr "\x7b\x7d"))) with
        ⟨content, isError⟩ | _
      · simp [WeatherClient.processTurns, hcalls, hout] at he
        rcases he with he | he | he | he
        · simp [he, Event.isListToolsFetch, Event.isChatCall]
        · simp [he, Event.isListToolsFetch, Event.isChatCall]
        · simp [he, Event.isListToolsFetch, Event.isChatCall]
        · exact ih _ e he
      · simp [WeatherClient.processTurns, hcalls, hout] at he
        rcases he with he | he
        · simp [he, Event.isListToolsFetch, Event.isChatCall]
        · simp [he, Event.isListToolsFetch, Event.isChatCall]

/-- C5: for every ordered sequence of tool descriptors,
`convert_tools_format` returns a sequence of the same length in the same
order, whose i-th entry is `\x7btype: "function", function: \x7bname,
description, parameters\x7d\x7d` with `name`, `description` and
`parameters` exactly equal to the i-th input descriptor's name, description
and input schema. -/
theorem convert_tools_format_roundtrip (tools : List MCPTool) :
    (convert_tools_format tools).length = tools.length ∧
    ∀ i : Nat, (convert_tools_format tools)[i]? =
      tools[i]?.map fun tool =>
        { type := "function"
          function :=
            { name := tool.name
              description := tool.description
              parameters := tool.inputSchema } : OllamaTool } := by
  refine ⟨by simp [convert_tools_format], fun i => ?_⟩
  simp [convert_tools_format]

/-- C9: calling the resource-release operation `cleanup` twice in
succession is safe - the second call closes no resource (its event list is
empty, so no stream, session or subprocess is re-closed) and leaves the
already-emptied exit stack unchanged; the operation is total, so no
exception is raised. -/
theorem cleanup_idempotent (stack : AsyncExitStack) :
    cleanup (cleanup stack).1 = ((cleanup stack).1, []) := by
  simp [cleanup, AsyncExitStack.aclose]

/-- C8: for every provider locator whose path ends neither in `.py` nor in
`.js`, `connect_to_server` fails with `ValueError` while its event trace is
empty - no subprocess spawn, no handshake, no catalog fetch happened - and
no connection state is produced (the result is an error, not an updated
`ClientState`). -/
theorem connect_to_server_rejects_unsupported_suffix
    (st : MultiClient.ClientState) (path : String) (newSession : Session)
    (hpy : strEndsWith path ".py" = false) (hjs : strEndsWith path ".js" = false) :
    MultiClient.connect_to_server st path newSession =
      (.error (.valueError "Server script must be a .py or .js file"), []) := by
  simp [MultiClient.connect_to_server, hpy, hjs]

/-- Witness for C8 at the concrete locator `server.txt`. -/
theorem connect_to_server_rejects_unsupported_suffix_witness :
    MultiClient.connect_to_server MultiClient.init "server.txt" providerA =
      (.error (.valueError "Server script must be a .py or .js file"), []) :=
  connect_to_server_rejects_unsupported_suffix MultiClient.init "server.txt" providerA
    (by decide) (by decide)

/-- C6: for every model response containing no tool calls, `process_query`
terminates after exactly one model round-trip - its whole trace is the
initial catalog fetch plus a single `chatCall`, with no `toolDispatch` -
and returns the response's textual content unchanged. -/
theorem process_query_final_answer_single_round
    (session : Session) (jsonLoads : String → Option Json) (query c : String)
    (response : ModelResponse) (rest : List ModelResponse)
    (hcalls : response.message.tool_calls.getD [] = [])
    (hcontent : response.message.content = some c) :
    WeatherClient.process_query session jsonLoads query (response :: rest) =
      (.ok c,
        [.listToolsFetch session.tools, .chatCall (convert_tools_format session.tools)]) := by
  simp [WeatherClient.process_query, WeatherClient.processTurns, hcalls, hcontent]

/-- Witness for C6: a no-tool-call response with content `done` is answered
in one round-trip. -/
theorem process_query_final_answer_single_round_witness :
    WeatherClient.process_query providerB demoDecode "hi" (finalResponse :: []) =
      (.ok "done",
        [.listToolsFetch providerB.tools, .chatCall (convert_tools_format providerB.tools)]) :=
  process_query_final_answer_single_round providerB demoDecode "hi" "done"
    finalResponse [] rfl rfl

/-- C2: in any turn whose dispatched tool invocation fails at the provider
level (the session returns an error-flagged `CallToolResult` rather than
raising), the turn loop stringifies that result, appends it to the
conversation history as the tool's result content, and continues with the
remaining model responses - the turn contributes `chatCall`,
`toolDispatch`, `historyAppend` and then recurses, raising no exception of
its own. -/
theorem process_query_tool_error_recovered
    (session : Session) (jsonLoads : String → Option Json)
    (available_tools : List OllamaTool) (messages : List Message)
    (response : ModelResponse) (rest : List ModelResponse)
    (call0 : ToolCall) (cs : List ToolCall) (errText : String)
    (hcalls : response.message.tool_calls.getD [] = call0 :: cs)
    (herr : session.call_tool call0.function.name
        (decodeToolArgs jsonLoads (call0.function.arguments.getD (.pyStr "\x7b\x7d"))) =
      .result errText true) :
    WeatherClient.processTurns session jsonLoads available_tools messages
        (response :: rest) =
      (let toolMsg := Message.tool call0.function.name (strCallToolResult errText true)
       let k := WeatherClient.processTurns session jsonLoads available_tools
         (messages ++ [toolMsg]) rest
       (k.1, .chatCall available_tools ::
         .toolDispatch call0.function.name
           (decodeToolArgs jsonLoads (call0.function.arguments.getD (.pyStr "\x7b\x7d"))) ::
         .historyAppend toolMsg :: k.2)) := by
  simp [WeatherClient.processTurns, hcalls, herr]

/-- Witness for C2: a provider whose tool execution fails with `boom` has
the stringified error result appended and the loop continue. -/
theorem process_query_tool_error_recovered_witness :
    WeatherClient.processTurns flakyProvider demoDecode [] []
        (askWeatherResponse :: []) =
      (let toolMsg := Message.tool (some "get_weather") (strCallToolResult "boom" true)
       let k := WeatherClient.processTurns flakyProvider demoDecode []
         ([] ++ [toolMsg]) []
       (k.1, .chatCall [] ::
         .toolDispatch (some "get_weather") (Json.obj []) ::
         .historyAppend toolMsg :: k.2)) :=
  process_query_tool_error_recovered flakyProvider demoDecode [] []
    askWeatherResponse []
    { function := { name := some "get_weather", arguments := some (.pyStr "\x7b\x7d") } }
    [] "boom" rfl rfl

/-- C3: when the selected tool call's `arguments` slot holds a string that
fails JSON decoding, the turn loop substitutes the empty mapping, dispatches
the call with that empty mapping (`toolDispatch` carries `Json.obj []`),
appends the result, and continues with the remaining responses instead of
raising. -/
theorem process_query_bad_json_empty_mapping
    (session : Session) (jsonLoads : String → Option Json)
    (available_tools : List OllamaTool) (messages : List Message)
    (response : ModelResponse) (rest : List ModelResponse)
    (call0 : ToolCall) (cs : List ToolCall) (s content : String) (isError : Bool)
    (hcalls : response.message.tool_calls.getD [] = call0 :: cs)
    (hargs : call0.function.arguments = some (.pyStr s))
    (hdec : jsonLoads s = none)
    (hcall : session.call_tool call0.function.name (.obj []) = .result content isError) :
    WeatherClient.processTurns session jsonLoads available_tools messages
        (response :: rest) =
      (let toolMsg := Message.tool call0.function.name (strCallToolResult content isError)
       let k := WeatherClient.processTurns session jsonLoads available_tools
         (messages ++ [toolMsg]) rest
       (k.1, .chatCall available_tools ::
         .toolDispatch call0.function.name (.obj []) ::
         .historyAppend toolMsg :: k.2)) := by
  simp [WeatherClient.processTurns, hcalls, hargs, decodeToolArgs, hdec, hcall]

/-- Witness for C3: the literal argument string `not-json` fails to decode
and the dispatched call receives the empty mapping. -/
theorem process_query_bad_json_empty_mapping_witness :
    WeatherClient.processTurns providerB failDecode [] []
        (badJsonResponse :: []) =
      (let toolMsg := Message.tool (some "get_weather") (strCallToolResult "sunny" false)
       let k := WeatherClient.processTurns providerB failDecode []
         ([] ++ [toolMsg]) []
       (k.1, .chatCall [] ::
         .toolDispatch (some "get_weather") (Json.obj []) ::
         .historyAppend toolMsg :: k.2)) :=
  process_query_bad_json_empty_mapping providerB failDecode [] []
    badJsonResponse []
    { function := { name := some "get_weather", arguments := some (.pyStr "not-json") } }
    [] "not-json" "sunny" false rfl rfl rfl rfl

/-- C10: when the selected tool call's `arguments` slot already holds a
structured mapping, `json.loads` raises `TypeError`, the `except TypeError:
pass` arm keeps the mapping unchanged, and the dispatch receives exactly
that mapping (`toolDispatch` carries `Json.obj m`); the empty-mapping
fallback is not applied. -/
theorem process_query_mapping_args_forwarded
    (session : Session) (jsonLoads : String → Option Json)
    (available_tools : List OllamaTool) (messages : List Message)
    (response : ModelResponse) (rest : List ModelResponse)
    (call0 : ToolCall) (cs : List ToolCall)
    (m : List (String × Json)) (content : String) (isError : Bool)
    (hcalls : response.message.tool_calls.getD [] = call0 :: cs)
    (hargs : call0.function.arguments = some (.pyDict m))
    (hcall : session.call_tool call0.function.name (.obj m) = .result content isError) :
    WeatherClient.processTurns session jsonLoads available_tools messages
        (response :: rest) =
      (let toolMsg := Message.tool call0.function.name (strCallToolResult content isError)
       let k := WeatherClient.processTurns session jsonLoads available_tools
         (messages ++ [toolMsg]) rest
       (k.1, .chatCall available_tools ::
         .toolDispatch call0.function.name (.obj m) ::
         .historyAppend toolMsg :: k.2)) := by
  simp [WeatherClient.processTurns, hcalls, hargs, decodeToolArgs, hcall]

/-- Witness for C10: a mapping argument `\x7bcity: SF\x7d` reaches the
dispatch unchanged. -/
theorem process_query_mapping_args_forwarded_witness :
    WeatherClient.processTurns providerB failDecode [] []
        (dictArgsResponse :: []) =
      (let toolMsg := Message.tool (some "get_weather") (strCallToolResult "sunny" false)
       let k := WeatherClient.processTurns providerB failDecode []
         ([] ++ [toolMsg]) []
       (k.1, .chatCall [] ::
         .toolDispatch (some "get_weather") (Json.obj [("city", .str "SF")]) ::
         .historyAppend toolMsg :: k.2)) :=
  process_query_mapping_args_forwarded providerB failDecode [] []
    dictArgsResponse []
    { function :=
        { name := some "get_weather"
          arguments := some (.pyDict [("city", .str "SF")]) } }
    [] [("city", .str "SF")] "sunny" false rfl rfl rfl

/-- C4: for every model response carrying one or more tool-call requests,
the turn dispatches exactly the first entry of the `tool_calls` sequence -
the turn's trace is `chatCall`, then a `toolDispatch` for the first call's
name and decoded arguments, and no further `toolDispatch` occurs before the
next model round-trip (the next `chatCall`). -/
theorem process_query_first_tool_call_only
    (session : Session) (jsonLoads : String → Option Json)
    (available_tools : List OllamaTool) (messages : List Message)
    (response : ModelResponse) (rest : List ModelResponse)
    (call0 : ToolCall) (cs : List ToolCall)
    (hcalls : response.message.tool_calls.getD [] = call0 :: cs) :
    ∃ t, (WeatherClient.processTurns session jsonLoads available_tools messages
        (response :: rest)).2 =
      .chatCall available_tools ::
        .toolDispatch call0.function.name
          (decodeToolArgs jsonLoads (call0.function.arguments.getD (.pyStr "\x7b\x7d"))) ::
        t ∧
      ∀ e ∈ t.takeWhile (fun e => !e.isChatCall), e.isToolDispatch = false := by
  rcases hout : session.call_tool call0.function.name
      (decodeToolArgs jsonLoads (call0.function.arguments.getD (.pyStr "\x7b\x7d"))) with
      ⟨content, isError⟩ | _
  · refine ⟨Event.historyAppend (Message.tool call0.function.name
        (strCallToolResult content isError)) ::
      (WeatherClient.processTurns session jsonLoads available_tools
        (messages ++ [Message.tool call0.function.name
          (strCallToolResult content isError)]) rest).2,
      by simp [WeatherClient.processTurns, hcalls, hout], ?_⟩
    intro e he
    rcases weather_trace_head session jsonLoads available_tools
        (messages ++ [Message.tool call0.function.name
          (strCallToolResult content isError)]) rest with hnil | ⟨t', ht'⟩
    · rw [hnil] at he
      simp [Event.isChatCall, List.takeWhile] at he
      simp [he, Event.isToolDispatch]
    · rw [ht'] at he
      simp [Event.isChatCall, List.takeWhile] at he
      simp [he, Event.isToolDispatch]
  · exact ⟨[], by simp [WeatherClient.processTurns, hcalls, hout], by simp⟩

/-- Witness for C4: a response with two tool calls (`get_weather` then
`get_time`) dispatches only `get_weather` before the next round-trip. -/
theorem process_query_first_tool_call_only_witness :
    ∃ t, (WeatherClient.processTurns providerB demoDecode [] []
        (twoCallResponse :: [])).2 =
      .chatCall [] :: .toolDispatch (some "get_weather") (Json.obj []) :: t ∧
      ∀ e ∈ t.takeWhile (fun e => !e.isChatCall), e.isToolDispatch = false :=
  process_query_first_tool_call_only providerB demoDecode [] []
    twoCallResponse []
    { function := { name := some "get_weather", arguments := some (.pyStr "\x7b\x7d") } }
    [{ function := { name := some "get_time", arguments := some (.pyStr "\x7b\x7d") } }]
    rfl

/-- C7 counterexample: a concrete two-turn run of the weather client (turn
one dispatches `get_weather`, turn two returns the final answer).  The run
makes two model round-trips, yet `chatsPrecededByFetch` - the trace-level
formalisation of "the catalog is re-fetched before each conversation
turn" - is `false` on its trace: no `listToolsFetch` occurs between the
first and the second `chatCall`, because both clients fetch the catalog
once before entering the loop. -/
theorem process_query_not_refetched_each_turn :
    (((WeatherClient.process_query providerB demoDecode "What is the weather?"
        (askWeatherResponse :: finalResponse :: [])).2.filter
          Event.isChatCall).length = 2) ∧
    chatsPrecededByFetch
      (WeatherClient.process_query providerB demoDecode "What is the weather?"
        (askWeatherResponse :: finalResponse :: [])).2 false = false :=
  ⟨rfl, rfl⟩

/-- C7 (amended): for every invocation of the weather client's
`process_query`, the aggregate tool catalog is fetched from the provider
exactly once, at the start of the invocation before the first model
round-trip - the trace starts with the single `listToolsFetch`, the rest of
the trace contains no fetch at all, and every `chatCall` of the loop
carries the catalog translated from that initial fetch. -/
theorem process_query_catalog_fetched_once_per_query
    (session : Session) (jsonLoads : String → Option Json)
    (query : String) (responses : List ModelResponse) :
    ∃ t,
      (WeatherClient.process_query session jsonLoads query responses).2 =
        .listToolsFetch session.tools :: t ∧
      (∀ e ∈ t, e.isListToolsFetch = false) ∧
      (∀ e ∈ t, e.isChatCall = true →
        e = .chatCall (convert_tools_format session.tools)) := by
  refine ⟨(WeatherClient.processTurns session jsonLoads
      (convert_tools_format session.tools) [Message.user query] responses).2,
    rfl, fun e he => ?_, fun e he => ?_⟩
  · exact (weather_turns_no_refetch session jsonLoads
      (convert_tools_format session.tools) responses [Message.user query] e he).1
  · exact (weather_turns_no_refetch session jsonLoads
      (convert_tools_format session.tools) responses [Message.user query] e he).2

/-- Witness for the amended C7 at a concrete two-turn run. -/
theorem process_query_catalog_fetched_once_per_query_witness :
    ∃ t,
      (WeatherClient.process_query providerB demoDecode "What is the weather?"
          (askWeatherResponse :: finalResponse :: [])).2 =
        .listToolsFetch providerB.tools :: t ∧
      (∀ e ∈ t, e.isListToolsFetch = false) ∧
      (∀ e ∈ t, e.isChatCall = true →
        e = .chatCall (convert_tools_format providerB.tools)) :=
  process_query_catalog_fetched_once_per_query providerB demoDecode
    "What is the weather?" (askWeatherResponse :: finalResponse :: [])

/-- C1: evidence of the dispatch defect in multi_client.py.  With two
connected providers - A advertising `get_time`, B advertising
`get_weather` - a query whose model response requests `get_weather` is
never routed to provider B (nor to any provider): the state reached by
`connect_to_servers` still has the `session` attribute unassigned (only
`sessions` is populated), so the dispatch site `self.session.call_tool`
(line 130) raises `AttributeError`.  The run's trace shows the two catalog
fetches and the single model round-trip, and contains no `toolDispatch`
event at all. -/
theorem multi_client_dispatch_raises_attribute_error :
    (MultiClient.connect_to_servers MultiClient.init
        [("server_a.py", providerA), ("server_b.py", providerB)]).1 =
      .ok twoProviderState ∧
    MultiClient.process_query twoProviderState demoDecode "What is the weather?"
        (askWeatherResponse :: []) =
      (.error (.attributeError "session"),
        [.listToolsFetch [getTimeTool], .listToolsFetch [getWeatherTool],
         .chatCall (convert_tools_format [getTimeTool] ++
           convert_tools_format [getWeatherTool])]) :=
  ⟨rfl, rfl⟩
